import Mathlib

/-!
Verification of the content-based movie recommender
(`backend/app/recommender.py`) against its natural-language specification.

The Python module is shallowly embedded below: item records become a
structure, Python floats become `ℚ`, Python lists become `List`, Python
`set` objects are represented by duplicate-free lists (membership and
cardinality are all the scoring path ever uses of them, while the
enumeration order used when a set is rendered into text is threaded as an
explicit parameter, mirroring the fact that CPython's set iteration order
is not a function of the set's contents across interpreter runs).

The external numeric libraries (`sklearn`'s `TfidfVectorizer` /
`cosine_similarity`, `numpy`) are not part of the repository's sources;
where their behaviour is needed it is modelled from the specification, and
each such definition carries a doc comment starting `Modelled from the
spec:`.  Parts of `recommender.py` itself that are damaged in the source
snapshot (the middle of `recommend`, the cold-start helper and the
diversity-boost helper) are likewise modelled from the specification.
-/

attribute [local semireducible] Rat.mul Rat.add Rat.sub Rat.inv Rat.ofScientific

set_option maxRecDepth 100000

/-- A franchise / collection reference `{id, name}`. -/
structure Collection where
  id : Int
  name : String
deriving Repr, DecidableEq

/-- One catalog item record (§3 of the spec).  Optional numeric fields are
`Option`s so that "absent" is distinguished from a present `0`; the
string-valued optional fields are plain `String`s with `""` playing the
role of the missing/falsy value, exactly how the Python code consumes them
(`movie.get("director", "")`, `movie.get("decade") or ""`, truthiness
tests). -/
structure Movie where
  id : Int
  title : String
  year : Option Int
  genres : List String
  director : String
  overview : Option String
  description : String
  keywords : List String
  cast : List String
  production_companies : List String
  production_countries : List String
  certification : String
  decade : String
  original_language : String
  tagline : String
  popularity_tier : String
  belongs_to_collection : Option Collection
  popularity : Option ℚ
  vote_average : Option ℚ
  vote_count : Option Int
deriving Repr, DecidableEq

/-- A movie record with every field empty/absent; used as the `getD`
default where the Python code would have already guaranteed presence. -/
def emptyMovie : Movie :=
  ⟨0, "", none, [], "", none, "", [], [], [], [], "", "", "", "", "", none, none, none, none⟩

instance : Inhabited Movie := ⟨emptyMovie⟩

/- ## Character / string utilities

The Python code manipulates text through `str.strip`, `str.lower`,
`str.replace(".", "")`, `" ".join` and `str.split`.  These are modelled at
the character-list level so that proofs can proceed by list induction. -/

/-- `str.strip()`: drop whitespace from both ends. -/
def stripChars (l : List Char) : List Char :=
  ((l.dropWhile Char.isWhitespace).reverse.dropWhile Char.isWhitespace).reverse

/-- `s.strip()` on strings. -/
def pyStrip (s : String) : String := String.mk (stripChars s.data)

/-- `s.lower()` (ASCII case folding, which covers the corpus text). -/
def strLower (s : String) : String := String.mk (s.data.map Char.toLower)

/-- `g.strip().lower()`, the normalization applied to every element of a
list-valued field before joining. -/
def cleanItem (s : String) : String := String.mk ((stripChars s.data).map Char.toLower)

/-- `_normalize_text`: `text.strip().lower().replace(".", "")`. -/
def normalize_text (s : String) : String :=
  String.mk (((stripChars s.data).map Char.toLower).filter (fun c => c ≠ '.'))

/-- `sep.join(parts)`. -/
def joinBy (sep : String) : List String → String
  | [] => ""
  | [s] => s
  | s :: rest => s ++ sep ++ joinBy sep rest

/-- `" ".join(parts)`. -/
def joinSp (parts : List String) : String := joinBy " " parts

/-- Maximal runs of characters satisfying `p`, with an accumulator for the
run currently being read (kept reversed). -/
def runsAcc (p : Char → Bool) : List Char → List Char → List (List Char)
  | acc, [] => if acc.isEmpty then [] else [acc.reverse]
  | acc, c :: cs =>
      if p c then runsAcc p (c :: acc) cs
      else (if acc.isEmpty then [] else [acc.reverse]) ++ runsAcc p [] cs

/-- Maximal runs of characters satisfying `p` in a character list. -/
def runsBy (p : Char → Bool) (l : List Char) : List (List Char) := runsAcc p [] l

/-- A word character in the sense of the vectorizer's token pattern
`\w` (ASCII letters, digits, underscore — the corpus is ASCII). -/
def isWordChar (c : Char) : Bool := c.isAlphanum || c == '_'

/-- Modelled from the spec: tokenization of the external
`TfidfVectorizer` (not in the sources), which lowercases and extracts
maximal word-character runs of length at least 2 (sklearn's default token
pattern `\w\w+`), applied to a character list. -/
def tokensL (l : List Char) : List String :=
  ((runsBy isWordChar l).filter (fun r => decide (2 ≤ r.length))).map String.mk

/-- Modelled from the spec: document tokenization (lowercase, then
word-character runs of length ≥ 2). -/
def tokens (s : String) : List String := tokensL (s.data.map Char.toLower)

/-- `str.split()` with no argument: maximal runs of non-whitespace. -/
def splitWs (s : String) : List String := (runsBy (fun c => !c.isWhitespace) s.data).map String.mk

/- ## Constants (`recommender.py` lines 7–56, intact in the source) -/

def WEIGHT_GENRES : Nat := 5
def WEIGHT_KEYWORDS : Nat := 6
def WEIGHT_DIRECTOR : Nat := 3
def WEIGHT_CAST : Nat := 2
def WEIGHT_CERTIFICATION : Nat := 2

def MAX_OVERVIEW_WORDS : Nat := 150
def MAX_CAST_MEMBERS : Nat := 5
def MAX_COMPANIES : Nat := 3
def MAX_COUNTRIES : Nat := 2
def MIN_VOTES_FOR_QUALITY : Int := 50
def CURRENT_YEAR : Int := 2026

def BOOST_POPULARITY_SCALE : ℚ := 40
def BOOST_RATING_EXCELLENT : ℚ := 1.3
def BOOST_RATING_VERY_GOOD : ℚ := 1.2
def BOOST_RATING_GOOD : ℚ := 1.15
def BOOST_RATING_DECENT : ℚ := 1.1
def PENALTY_RATING_POOR : ℚ := 0.8
def BOOST_RECENT_MOVIES : ℚ := 1.05
def BOOST_MODERN_MOVIES : ℚ := 1.02
def BOOST_CLASSICS : ℚ := 1.01
def BOOST_COLLECTION : ℚ := 1.1
def BOOST_SAME_FRANCHISE : ℚ := 1.3

def DIVERSITY_BOOST_NEW_DIRECTOR : ℚ := 1.2
def DIVERSITY_BOOST_NEW_COMPANY : ℚ := 1.15
def DIVERSITY_BOOST_SOME_OVERLAP : ℚ := 1.05
def DIVERSITY_BOOST_NEW_KEYWORDS : ℚ := 1.1
def DIVERSITY_PENALTY_KEYWORD_OVERLAP : ℚ := 0.85
def DIVERSITY_BOOST_NEW_DECADE : ℚ := 1.08
def GENRE_PENALTY_HIGH_OVERLAP : ℚ := 0.8
def GENRE_PENALTY_MEDIUM_OVERLAP : ℚ := 0.9
def GENRE_PENALTY_LOW_OVERLAP : ℚ := 0.95

def RATING_THRESHOLD_EXCELLENT : ℚ := 8.0
def RATING_THRESHOLD_VERY_GOOD : ℚ := 7.5
def RATING_THRESHOLD_GOOD : ℚ := 7.0
def RATING_THRESHOLD_DECENT : ℚ := 6.5
def RATING_THRESHOLD_POOR : ℚ := 5.0
def AGE_RECENT : Int := 3
def AGE_MODERN : Int := 10
def AGE_CLASSIC : Int := 40
def KEYWORD_OVERLAP_LOW : ℚ := 0.3
def KEYWORD_OVERLAP_HIGH : ℚ := 0.7

/- ## Feature Text Synthesizer (`_extract_overview`, `_repeat_text`,
`_movie_to_text`; `recommender.py` lines 64–117, intact in the source) -/

/-- `_extract_overview`: take the overview (falling back on the
description), lowercase it, keep the first `MAX_OVERVIEW_WORDS` words. -/
def extract_overview (m : Movie) : String :=
  let ov := match m.overview with
    | some o => o
    | none => m.description
  if ov ≠ "" then joinSp ((splitWs (strLower ov)).take MAX_OVERVIEW_WORDS) else ""

/-- `_repeat_text`: `" ".join([text] * weight)`. -/
def repeat_text (text : String) (weight : Nat) : String :=
  joinSp (List.replicate weight text)

/-- The `genres` token group: `" ".join(g.strip().lower() for g in genres)`. -/
def genresText (m : Movie) : String := joinSp (m.genres.map cleanItem)

/-- The `director` token group (normalized). -/
def directorText (m : Movie) : String := normalize_text m.director

/-- The `keywords` token group. -/
def keywordsText (m : Movie) : String := joinSp (m.keywords.map cleanItem)

/-- The `cast` token group: first `MAX_CAST_MEMBERS` members. -/
def castText (m : Movie) : String := joinSp ((m.cast.take MAX_CAST_MEMBERS).map cleanItem)

/-- The `production_companies` token group: first `MAX_COMPANIES`. -/
def companiesText (m : Movie) : String :=
  joinSp ((m.production_companies.take MAX_COMPANIES).map cleanItem)

/-- The `certification` token group (normalized). -/
def certificationText (m : Movie) : String := normalize_text m.certification

/-- The `decade` token group. -/
def decadeText (m : Movie) : String := strLower m.decade

/-- The `original_language` token group. -/
def languageText (m : Movie) : String := strLower m.original_language

/-- The `production_countries` token group: first `MAX_COUNTRIES`. -/
def countriesText (m : Movie) : String :=
  joinSp ((m.production_countries.take MAX_COUNTRIES).map cleanItem)

/-- The `tagline` token group. -/
def taglineText (m : Movie) : String := strLower m.tagline

/-- The `popularity_tier` token group. -/
def popularityTierText (m : Movie) : String := strLower m.popularity_tier

/-- Entry `f"generos:{_repeat_text(genres, WEIGHT_GENRES)}"` of `parts`. -/
def partGeneros (m : Movie) : String := "generos:" ++ repeat_text (genresText m) WEIGHT_GENRES

/-- Entry `f"keywords:{_repeat_text(keywords, WEIGHT_KEYWORDS)}"`. -/
def partKeywords (m : Movie) : String :=
  "keywords:" ++ repeat_text (keywordsText m) WEIGHT_KEYWORDS

/-- Entry `f"diretor:{_repeat_text(director, WEIGHT_DIRECTOR)}"`. -/
def partDiretor (m : Movie) : String :=
  "diretor:" ++ repeat_text (directorText m) WEIGHT_DIRECTOR

/-- Entry `f"elenco:{_repeat_text(cast, WEIGHT_CAST)}"`. -/
def partElenco (m : Movie) : String := "elenco:" ++ repeat_text (castText m) WEIGHT_CAST

/-- Entry `f"empresas:{companies}"`. -/
def partEmpresas (m : Movie) : String := "empresas:" ++ companiesText m

/-- Entry `f"certificacao:{_repeat_text(certification, WEIGHT_CERTIFICATION)}"`. -/
def partCertificacao (m : Movie) : String :=
  "certificacao:" ++ repeat_text (certificationText m) WEIGHT_CERTIFICATION

/-- Entry `f"decada:{decade}"`. -/
def partDecada (m : Movie) : String := "decada:" ++ decadeText m

/-- Entry `f"idioma:{original_language}"`. -/
def partIdioma (m : Movie) : String := "idioma:" ++ languageText m

/-- Entry `f"paises:{countries}"`. -/
def partPaises (m : Movie) : String := "paises:" ++ countriesText m

/-- Entry `f"popularidade:{popularity_tier}"`. -/
def partPopularidade (m : Movie) : String := "popularidade:" ++ popularityTierText m

/-- Entry `f"tagline:{tagline}"`. -/
def partTagline (m : Movie) : String := "tagline:" ++ taglineText m

/-- Entry `f"sinopse:{overview_text}"`. -/
def partSinopse (m : Movie) : String := "sinopse:" ++ extract_overview m

/-- `_movie_to_text`: the weighted pseudo-document, `" ".join(parts)`. -/
def movie_to_text (m : Movie) : String :=
  joinSp [partGeneros m, partKeywords m, partDiretor m, partElenco m, partEmpresas m,
    partCertificacao m, partDecada m, partIdioma m, partPaises m, partPopularidade m,
    partTagline m, partSinopse m]

/- ## Vector Space Model (spec §4.2)

The vectorizer itself is `sklearn.TfidfVectorizer` / `cosine_similarity`,
external collaborators that are not part of this repository's sources, so
this component is modelled from the specification. -/

/-- Dot product of two rational vectors (pointwise, truncated at the
shorter vector — the corpus vectors all share the vocabulary length). -/
def dot : List ℚ → List ℚ → ℚ
  | a :: as, b :: bs => a * b + dot as bs
  | _, _ => 0

/-- Binary search for the integer square root: maintains `lo² ≤ n`,
narrowing `[lo, hi)` with explicit fuel so the kernel can evaluate it. -/
def sqrtBin : Nat → Nat → Nat → Nat → Nat
  | 0, _, lo, _ => lo
  | fuel + 1, n, lo, hi =>
    let mid := (lo + hi) / 2
    if mid = lo then lo
    else if mid * mid ≤ n then sqrtBin fuel n mid hi else sqrtBin fuel n lo mid

/-- Integer square root (fuel 400 covers every number below `2^400`,
far beyond any value arising here). -/
def natSqrt (n : Nat) : Nat := sqrtBin 400 n 0 (n + 1)

/-- Rational square root, exact on perfect squares of the numerator and
denominator.  This keeps the modelled norm inside `ℚ` so the pipeline
stays executable. -/
def ratSqrt (q : ℚ) : ℚ := (natSqrt q.num.toNat : ℚ) / (natSqrt q.den : ℚ)

/-- Modelled from the spec: cosine similarity — "normalized dot-product
similarity between two vectors" (glossary) — with a zero vector mapped to
similarity 0 as the external library does. -/
def cosineSim (u v : List ℚ) : ℚ :=
  let nu := ratSqrt (dot u u)
  let nv := ratSqrt (dot v v)
  if nu = 0 ∨ nv = 0 then 0 else dot u v / (nu * nv)

/-- Elementwise sum of two vectors. -/
def vadd (a b : List ℚ) : List ℚ := List.zipWith (· + ·) a b

/-- Elementwise mean of a list of row vectors (`matrix.mean(axis=0)`):
sum of the rows divided by how many rows there are — duplicated row
indices contribute one row each. -/
def vecMean (rows : List (List ℚ)) : List ℚ :=
  match rows with
  | [] => []
  | r :: rs => (rs.foldl vadd r).map (fun x => x / ((rs.length + 1 : Nat) : ℚ))

/-- Insert `x` into `l` keeping elements `y` with `r x y = false` before
it; `sortBy r` below is a stable insertion sort.  With `r x y` meaning
"`x` may precede `y`" (true on ties) it reproduces Python's stable
`sorted`. -/
def insertBy (r : α → α → Bool) (x : α) : List α → List α
  | [] => [x]
  | y :: ys => if r x y then x :: y :: ys else y :: insertBy r x ys

/-- Stable insertion sort: Python's `sorted(l, key=...)` where
`r x y = true` iff `x`'s key must not come after `y`'s (ties included). -/
def sortBy (r : α → α → Bool) : List α → List α
  | [] => []
  | x :: xs => insertBy r x (sortBy r xs)

/-- Lexicographic comparison of character lists by code point — Python's
string ordering. -/
def charListLt : List Char → List Char → Bool
  | [], [] => false
  | [], _ :: _ => true
  | _ :: _, [] => false
  | a :: as, b :: bs =>
    if a.toNat < b.toNat then true
    else if b.toNat < a.toNat then false
    else charListLt as bs

/-- `a < b` on strings, by code points (Python's ordering). -/
def strLt (a b : String) : Bool := charListLt a.data b.data

/-- Ascending, stable string sort (Python's `sorted`). -/
def sortStr (l : List String) : List String := sortBy (fun x y => !strLt y x) l

/-- Number of occurrences of a token in a document (term frequency). -/
def tf (doc : List String) (t : String) : Nat := doc.count t

/-- Number of corpus documents containing a token (document frequency). -/
def df (docs : List (List String)) (t : String) : Nat :=
  (docs.filter (fun d => decide (t ∈ d))).length

/-- Modelled from the spec: "compute inverse-document-frequency weights
over the whole corpus" — the plain inverse document frequency
`N / df(t)` of a token (the external vectorizer is not in the sources). -/
def idf (docs : List (List String)) (t : String) : ℚ :=
  (docs.length : ℚ) / (df docs t : ℚ)

/-- The frozen vocabulary: sorted unique tokens of the whole corpus. -/
def vocabOf (docs : List (List String)) : List String :=
  sortStr docs.flatten.dedup

/-- Raw weighted-term vector of one document over the corpus vocabulary. -/
def rawVec (docs : List (List String)) (doc : List String) : List ℚ :=
  (vocabOf docs).map (fun t => (tf doc t : ℚ) * idf docs t)

/-- L2 normalization of a vector (zero vectors are left unchanged). -/
def l2normalize (v : List ℚ) : List ℚ :=
  let n := ratSqrt (dot v v)
  if n = 0 then v else v.map (fun x => x / n)

/-- Modelled from the spec: the build step of the Vector Space Model —
"tokenize every synthesized document, compute inverse-document-frequency
weights over the whole corpus, and compute a normalized weighted-term
vector per item" (§4.2). -/
def buildTfidf (movies : List Movie) : List (List ℚ) :=
  let docs := movies.map (fun m => tokens (movie_to_text m))
  docs.map (fun d => l2normalize (rawVec docs d))

/- ## The recommender class state -/

/-- `ContentBasedRecommender`: the immutable catalog plus the frozen
per-item vectors built once in `__init__`. -/
structure ContentBasedRecommender where
  movies : List Movie
  tfidf : List (List ℚ)

/-- `__init__`: build the vector index over the catalog. -/
def ContentBasedRecommender.init (movies : List Movie) : ContentBasedRecommender :=
  ⟨movies, buildTfidf movies⟩

/-- Position lookup carrying the offset of the list's head; the tail is
preferred, so on duplicate ids the later position wins. -/
def idToIdxFrom (x : Int) : Nat → List Movie → Option Nat
  | _, [] => none
  | i, m :: ms =>
    match idToIdxFrom x (i + 1) ms with
    | some q => some q
    | none => if m.id = x then some i else none

/-- `self._id_to_idx`: the id → position map `{m["id"]: idx for idx, m in
enumerate(movies)}` — on duplicate ids the later position wins, exactly as
dict construction does. -/
def idToIdx (movies : List Movie) (x : Int) : Option Nat := idToIdxFrom x 0 movies

/- ## Scoring Engine (spec §4.3; `recommend` lines 133–186, partially
damaged in the source snapshot) -/

/-- Popularity boost `1.0 + log1p(popularity) / 40` under the source's
truthiness guard `if m.get("popularity"):` (absent or `0` → neutral 1.0).
`np.log1p` is an external numeric routine, so the pipeline takes it as the
parameter `lg`. -/
def popularityBoost (lg : ℚ → ℚ) (m : Movie) : ℚ :=
  match m.popularity with
  | some p => if p ≠ 0 then 1 + lg p / BOOST_POPULARITY_SCALE else 1
  | none => 1

/-- The rating bands of the quality boost.  The first band (`>= 8.0 →
1.3`) survives in the damaged source; the remaining bands are modelled
from the spec ("≥7.5→1.20; ≥7.0→1.15; ≥6.5→1.10; <5.0→0.80; otherwise
neutral 1.0"), matching the intact named constants. -/
def ratingBand (r : ℚ) : ℚ :=
  if r ≥ RATING_THRESHOLD_EXCELLENT then BOOST_RATING_EXCELLENT
  else if r ≥ RATING_THRESHOLD_VERY_GOOD then BOOST_RATING_VERY_GOOD
  else if r ≥ RATING_THRESHOLD_GOOD then BOOST_RATING_GOOD
  else if r ≥ RATING_THRESHOLD_DECENT then BOOST_RATING_DECENT
  else if r < RATING_THRESHOLD_POOR then PENALTY_RATING_POOR
  else 1

/-- Quality boost guarded by the source's intact condition
`if m.get("vote_average") and m.get("vote_count", 0) > 50:` — note the
truthiness of `vote_average`, under which a present `0.0` rating behaves
like an absent one. -/
def qualityBoost (m : Movie) : ℚ :=
  match m.vote_average with
  | some r => if r ≠ 0 ∧ MIN_VOTES_FOR_QUALITY < m.vote_count.getD 0 then ratingBand r else 1
  | none => 1

/-- Modelled from the spec: recency boost (§4.3.6) — `age =
reference_year − year; age≤3→1.05; age≤10→1.02; age>40→1.01; otherwise
neutral 1.0`, with the source's intact constants and an absent (or falsy)
year staying neutral.  The inline source code for this boost is damaged. -/
def recencyBoost (m : Movie) : ℚ :=
  match m.year with
  | some y =>
    if y ≠ 0 then
      let age := CURRENT_YEAR - y
      if age ≤ AGE_RECENT then BOOST_RECENT_MOVIES
      else if age ≤ AGE_MODERN then BOOST_MODERN_MOVIES
      else if age > AGE_CLASSIC then BOOST_CLASSICS
      else 1
    else 1
  | none => 1

/-- Modelled from the spec: the generic franchise boost (§4.3.6) —
"×1.1 if the item belongs to any collection". -/
def collectionBoost (m : Movie) : ℚ :=
  if m.belongs_to_collection.isSome then BOOST_COLLECTION else 1

/-- Dampening (`recommend` lines 164–167, intact): for every disliked id
present in the id→position map, multiply that position's similarity by
0.1. -/
def applyDislikePenalty (movies : List Movie) : List Int → List ℚ → List ℚ
  | [], sims => sims
  | did :: rest, sims =>
    applyDislikePenalty movies rest
      (match idToIdx movies did with
       | some q => sims.set q (sims.getD q 0 * 0.1)
       | none => sims)

/-- All multiplicative boosts applied per item position, in lockstep over
the catalog and the similarity vector. -/
def applyBoosts (lg : ℚ → ℚ) : List Movie → List ℚ → List ℚ
  | [], _ => []
  | _ :: _, [] => []
  | m :: ms, s :: ss =>
    s * popularityBoost lg m * qualityBoost m * recencyBoost m * collectionBoost m ::
      applyBoosts lg ms ss

/-- Candidate predicate: the item is in neither `liked_ids` nor
`disliked_ids` ("Candidatos excluem curtidos/não curtidos"). -/
def isCandidate (liked_ids disliked_ids : List Int) (m : Movie) : Bool :=
  decide (m.id ∉ liked_ids) && decide (m.id ∉ disliked_ids)

/-- Base similarity, dampening, and boosts (spec §4.3 steps 3–6):
user vector = mean of the liked rows (duplicates kept), similarity of the
user vector against every item, dislike dampening, then the boosts. -/
def adjustedSims (rec : ContentBasedRecommender) (lg : ℚ → ℚ)
    (likedIdx : List Nat) (disliked_ids : List Int) : List ℚ :=
  let userVec := vecMean (likedIdx.map (fun i => rec.tfidf.getD i []))
  let sims := rec.tfidf.map (cosineSim userVec)
  applyBoosts lg rec.movies (applyDislikePenalty rec.movies disliked_ids sims)

/-- The same pipeline with the dislike-dampening step omitted; this is the
spec-side comparison definition for the "documented no-op" question
(§4.3.5 / §9). -/
def adjustedSimsNoDampen (rec : ContentBasedRecommender) (lg : ℚ → ℚ)
    (likedIdx : List Nat) : List ℚ :=
  let userVec := vecMean (likedIdx.map (fun i => rec.tfidf.getD i []))
  let sims := rec.tfidf.map (cosineSim userVec)
  applyBoosts lg rec.movies sims

/- ## Diversity Re-ranker (spec §4.4; `_apply_diversity_reranking`,
`_calculate_genre_penalty`, `_calculate_franchise_boost` are intact in the
source; `_calculate_diversity_boost` is damaged and modelled from the
spec plus the readable inline remnant of the pre-refactor code) -/

/-- The canonical duplicate-free representative of the Python set
intersection `set(a) & set(b)`: the distinct elements of `a` that occur
in `b`.  Only its membership and length feed the scores; its enumeration
order for display is a separate parameter. -/
def interCanon (a b : List String) : List String :=
  a.dedup.filter (fun x => decide (x ∈ b))

/-- Python `set.add` on the canonical list representation. -/
def pySetAdd (s : List String) (x : String) : List String :=
  if x ∈ s then s else s ++ [x]

/-- Python `set.update` on the canonical list representation. -/
def pySetUpdate (s : List String) (xs : List String) : List String :=
  xs.foldl pySetAdd s

/-- Modelled from the spec (§4.4) and the readable inline remnant of the
damaged `_calculate_diversity_boost`: ×1.2 for an unseen director, the
company bonus (×1.15 with no studio overlap, ×1.05 when the overlap covers
less than half of the seen studios), the keyword-overlap bonus/penalty
(share of the first five keywords already seen: <0.3 → ×1.1, >0.7 →
×0.85), and ×1.08 for an unseen decade; each factor is guarded by the
field's truthiness. -/
def calculate_diversity_boost (m : Movie) (seenDirectors seenCompanies seenKeywords
    seenDecades : List String) : ℚ :=
  let b1 : ℚ := if m.director ≠ "" ∧ m.director ∉ seenDirectors
    then DIVERSITY_BOOST_NEW_DIRECTOR else 1
  let b2 : ℚ :=
    if m.production_companies ≠ [] then
      let overlap := interCanon m.production_companies seenCompanies
      if overlap = [] then DIVERSITY_BOOST_NEW_COMPANY
      else if (overlap.length : ℚ) < (seenCompanies.length : ℚ) / 2
        then DIVERSITY_BOOST_SOME_OVERLAP else 1
    else 1
  let b3 : ℚ :=
    if m.keywords ≠ [] then
      let first5 := m.keywords.take 5
      let overlapShare : ℚ := ((interCanon first5 seenKeywords).length : ℚ) /
        ((max first5.length 1 : Nat) : ℚ)
      if overlapShare < KEYWORD_OVERLAP_LOW then DIVERSITY_BOOST_NEW_KEYWORDS
      else if overlapShare > KEYWORD_OVERLAP_HIGH then DIVERSITY_PENALTY_KEYWORD_OVERLAP
      else 1
    else 1
  let b4 : ℚ := if m.decade ≠ "" ∧ m.decade ∉ seenDecades
    then DIVERSITY_BOOST_NEW_DECADE else 1
  b1 * b2 * b3 * b4

/-- `_calculate_genre_penalty` (intact): penalty keyed to how many of the
item's genres were already recommended. -/
def calculate_genre_penalty (m : Movie) (recommendedGenres : List String) : ℚ :=
  let common := interCanon m.genres recommendedGenres
  if common.length > 2 then GENRE_PENALTY_HIGH_OVERLAP
  else if common.length = 2 then GENRE_PENALTY_MEDIUM_OVERLAP
  else if common.length = 1 then GENRE_PENALTY_LOW_OVERLAP
  else 1

/-- `_calculate_franchise_boost` (intact): ×1.3 when the item shares a
collection id with any liked item (first catalog occurrence of each liked
id, as `next(...)` does). -/
def calculate_franchise_boost (movies : List Movie) (m : Movie) (liked_ids : List Int) : ℚ :=
  match m.belongs_to_collection with
  | none => 1
  | some col =>
    if liked_ids.any (fun lid =>
        match movies.find? (fun lm => lm.id == lid) with
        | some lm =>
          match lm.belongs_to_collection with
          | some lc => col.id == lc.id
          | none => false
        | none => false)
    then BOOST_SAME_FRANCHISE else 1

/-- The growing state of the diversity scan: the seen sets, the cumulative
recommended genres, and how many items have been examined. -/
structure DivState where
  seenDirectors : List String
  seenCompanies : List String
  recommendedGenres : List String
  seenKeywords : List String
  seenDecades : List String
  count : Nat

/-- The state update after examining one item (intact source: directors,
first 2 companies, first 5 keywords, decade, all genres). -/
def divUpdate (st : DivState) (m : Movie) : DivState :=
  { seenDirectors := if m.director ≠ "" then pySetAdd st.seenDirectors m.director
      else st.seenDirectors
    seenCompanies := if m.production_companies ≠ [] then
      pySetUpdate st.seenCompanies (m.production_companies.take 2) else st.seenCompanies
    recommendedGenres := pySetUpdate st.recommendedGenres m.genres
    seenKeywords := if m.keywords ≠ [] then
      pySetUpdate st.seenKeywords (m.keywords.take 5) else st.seenKeywords
    seenDecades := if m.decade ≠ "" then pySetAdd st.seenDecades m.decade
      else st.seenDecades
    count := st.count + 1 }

/-- The bounded scan of `_apply_diversity_reranking` (intact): each ranked
item is appended as `(item, adjusted score, original score)` and the loop
breaks once the accumulated list reaches `k * 3` entries. -/
def diversityLoop (movies : List Movie) (liked_ids : List Int) (k : Nat) :
    DivState → List (Movie × ℚ) → List (Movie × ℚ × ℚ)
  | _, [] => []
  | st, (m, score) :: rest =>
    let db := calculate_diversity_boost m st.seenDirectors st.seenCompanies
      st.seenKeywords st.seenDecades
    let gp := calculate_genre_penalty m st.recommendedGenres
    let fb := calculate_franchise_boost movies m liked_ids
    let entry := (m, score * db * gp * fb, score)
    let st' := divUpdate st m
    if st'.count ≥ k * 3 then [entry]
    else entry :: diversityLoop movies liked_ids k st' rest

/-- The initial (empty) diversity state. -/
def divInit : DivState := ⟨[], [], [], [], [], 0⟩

/-- `_apply_diversity_reranking` (intact): run the bounded scan, then a
stable sort by adjusted score descending. -/
def apply_diversity_reranking (movies : List Movie) (liked_ids : List Int) (k : Nat)
    (ranked : List (Movie × ℚ)) : List (Movie × ℚ × ℚ) :=
  sortBy (fun a b => decide (b.2.1 ≤ a.2.1)) (diversityLoop movies liked_ids k divInit ranked)

/- ## Explanation Generator (spec §4.5; `_analyze_shared_features`,
`_build_reason_list`, `_format_quality_info` are intact in the source;
the head of the explanation method is damaged but its body, lines
314–338, is readable) -/

/-- The shared-feature analysis of `_analyze_shared_features` (intact).
`genres` is sorted; `keywords` / `cast` / `companies` are canonical
duplicate-free lists standing for the Python set intersections. -/
structure SharedFeatures where
  genres : List String
  same_director : Bool
  keywords : List String
  sharedCast : List String
  companies : List String
  same_certification : Bool
  same_decade : Bool
  same_collection : Bool

/-- `_analyze_shared_features` (intact). -/
def analyze_shared_features (movie reference : Movie) : SharedFeatures :=
  { genres := sortStr (interCanon movie.genres reference.genres)
    same_director := decide (movie.director = reference.director ∧ movie.director ≠ "")
    keywords := interCanon movie.keywords reference.keywords
    sharedCast := interCanon (movie.cast.take 5) (reference.cast.take 5)
    companies := interCanon movie.production_companies reference.production_companies
    same_certification := decide (movie.certification ≠ "" ∧ reference.certification ≠ "" ∧
      movie.certification = reference.certification)
    same_decade := decide (movie.decade ≠ "" ∧ reference.decade ≠ "" ∧
      movie.decade = reference.decade)
    same_collection :=
      match movie.belongs_to_collection, reference.belongs_to_collection with
      | some a, some b => a.id == b.id
      | _, _ => false }

/-- Round half to even, how CPython's fixed-point float formatting ties. -/
def roundHalfEven (q : ℚ) : Int :=
  let f := q.floor
  if q - f < 1 / 2 then f
  else if q - f > 1 / 2 then f + 1
  else if f % 2 = 0 then f else f + 1

/-- `f"{q:.0f}"` for the exact rationals the reasons print. -/
def formatFixed0 (q : ℚ) : String := toString (roundHalfEven q)

/-- `f"{q:.1f}"` for the exact non-negative rationals the reasons print. -/
def formatFixed1 (q : ℚ) : String :=
  let n := roundHalfEven (q * 10)
  toString (n / 10) ++ "." ++ toString (n % 10)

/-- `_format_quality_info` (intact): quality annotation, suppressed when
the rating is absent (or falsy `0.0`) or the vote count is ≤ 50; rating
plus vote count from 8.0 up, rating alone from 7.0 up. -/
def format_quality_info (m : Movie) : String :=
  match m.vote_average with
  | none => ""
  | some rating =>
    if rating = 0 then ""
    else if m.vote_count.getD 0 ≤ MIN_VOTES_FOR_QUALITY then ""
    else if rating ≥ RATING_THRESHOLD_EXCELLENT then
      "⭐ " ++ formatFixed1 rating ++ "/10 (" ++ toString (m.vote_count.getD 0) ++ " votos)"
    else if rating ≥ RATING_THRESHOLD_GOOD then "⭐ " ++ formatFixed1 rating ++ "/10"
    else ""

/-- `_build_reason_list` (intact): the prioritized reasons.  `en` is the
enumeration order in which a Python set is rendered as a list
(`list(features[...])`); CPython fixes it per process by string hashing,
so it is an explicit parameter here. -/
def build_reason_list (en : List String → List String) (movie : Movie)
    (f : SharedFeatures) : List String :=
  (if f.same_collection then
    ["mesma franquia (" ++
      (match movie.belongs_to_collection with | some c => c.name | none => "") ++ ")"]
   else []) ++
  (if f.same_director then ["diretor: " ++ movie.director] else []) ++
  (if f.keywords ≠ [] then
    [if f.keywords.length ≥ 3 then "temas: " ++ joinBy ", " ((en f.keywords).take 3)
     else if f.keywords.length ≥ 2 then "temas: " ++ joinBy ", " ((en f.keywords).take 2)
     else "tema: " ++ (en f.keywords).getD 0 ""]
   else []) ++
  (if f.sharedCast ≠ [] then
    [if f.sharedCast.length ≥ 2 then "elenco: " ++ joinBy ", " ((en f.sharedCast).take 2)
     else "ator: " ++ (en f.sharedCast).getD 0 ""]
   else []) ++
  (if f.genres ≠ [] then
    [if f.genres.length ≥ 2 then "gêneros: " ++ joinBy ", " (f.genres.take 2)
     else "gênero: " ++ f.genres.getD 0 ""]
   else []) ++
  (if f.same_certification then ["classificação: " ++ movie.certification] else []) ++
  (if f.same_decade then ["época: " ++ movie.decade] else []) ++
  (if f.companies ≠ [] then ["estúdio: " ++ (en f.companies).getD 0 ""] else [])

/-- First position of the maximum, as `np.argmax` returns it. -/
def argmaxAux : List ℚ → Nat → Nat → ℚ → Nat
  | [], _, bi, _ => bi
  | x :: xs, i, bi, bv => if x > bv then argmaxAux xs (i + 1) i x else argmaxAux xs (i + 1) bi bv

/-- `int(sims.argmax())` (0 on an empty list, unreachable in context). -/
def argmaxIdx : List ℚ → Nat
  | [] => 0
  | x :: xs => argmaxAux xs 1 0 x

/-- The explanation for one recommended item (body intact, lines 314–338):
anchor on the most similar liked item, then the prioritized reasons (at
most 4) and the quality annotation. -/
def generate_explanation (rec : ContentBasedRecommender) (en : List String → List String)
    (movie : Movie) (liked_ids : List Int) : String :=
  let likedIdx := liked_ids.filterMap (idToIdx rec.movies)
  if likedIdx = [] then "✨ Recomendado por similaridade de conteúdo."
  else
    let midx := (idToIdx rec.movies movie.id).getD 0
    let mrow := rec.tfidf.getD midx []
    let sims := likedIdx.map (fun j => cosineSim mrow (rec.tfidf.getD j []))
    let best := rec.movies.getD (likedIdx.getD (argmaxIdx sims) 0) emptyMovie
    let f := analyze_shared_features movie best
    let reasons := build_reason_list en movie f
    let parts := ["🎬 Baseado em \x27" ++ best.title ++ "\x27"] ++
      (if reasons ≠ [] then [" · " ++ joinBy " | " (reasons.take 4)] else []) ++
      (let q := format_quality_info movie
       if q ≠ "" then [" · " ++ q] else [])
    String.join parts

/- ## Cold start and `recommend` (spec §4.3; the head of `recommend` is
partially damaged in the source and the cold-start helper's body is lost
apart from two readable fragments) -/

/-- Descending lexicographic comparison on (popularity, vote_average,
year), ties stable. -/
def coldKeyGE (x y : Movie) : Bool :=
  if x.popularity.getD 0 > y.popularity.getD 0 then true
  else if x.popularity.getD 0 < y.popularity.getD 0 then false
  else if x.vote_average.getD 0 > y.vote_average.getD 0 then true
  else if x.vote_average.getD 0 < y.vote_average.getD 0 then false
  else decide ((y.year.getD 0 : Int) ≤ x.year.getD 0)

/-- Modelled from the spec: the generic cold-start reason, "report
popularity/rating generically" (§4.5), built as the readable fragments
show: a `· `-joined list with `🔥 {popularity:.0f} popularidade`. -/
def cold_reason (m : Movie) : String :=
  let p1 := match m.popularity with
    | some p => if p ≠ 0 then ["🔥 " ++ formatFixed0 p ++ " popularidade"] else []
    | none => []
  let p2 := match m.vote_average with
    | some r => if r ≠ 0 then ["⭐ " ++ formatFixed1 r ++ "/10"] else []
    | none => []
  joinBy " · " (p1 ++ p2)

/-- Modelled from the spec: `_get_cold_start_recommendations` (body
damaged) — "rank all eligible candidates by (popularity descending,
vote_average descending, year descending) … return the first k with a
generic justification … and a sentinel score of 0.0" (§4.3). -/
def get_cold_start_recommendations (candidates : List Movie) (k : Nat) :
    List (Movie × ℚ × String) :=
  ((sortBy coldKeyGE candidates).take k).map (fun m => (m, 0, cold_reason m))

/-- `recommend`.  The candidate filter, the cold-start guard, the ranking
of candidates by adjusted similarity and the final truncation are
modelled from the spec (§4.3.1, §4.3.7, §4.4) where the source lines are
damaged; the liked-position resolution, the empty-result short-circuit,
the user mean vector, the dampening and the re-ranking call are intact
source.  `lg` stands for the external `np.log1p`, `en` for the per-run
set enumeration order. -/
def ContentBasedRecommender.recommend (rec : ContentBasedRecommender) (lg : ℚ → ℚ)
    (en : List String → List String) (liked_ids disliked_ids : List Int) (k : Nat) :
    List (Movie × ℚ × String) :=
  let candidates := rec.movies.filter (isCandidate liked_ids disliked_ids)
  if liked_ids = [] then get_cold_start_recommendations candidates k
  else
    let likedIdx := liked_ids.filterMap (idToIdx rec.movies)
    if likedIdx = [] then []
    else
      let scores := adjustedSims rec lg likedIdx disliked_ids
      let candPairs := (rec.movies.zip scores).filter
        (fun p => isCandidate liked_ids disliked_ids p.1)
      let ranked := sortBy (fun a b => decide (b.2 ≤ a.2)) candPairs
      let diverse := apply_diversity_reranking rec.movies liked_ids k ranked
      (diverse.take k).map (fun t => (t.1, t.2.2, generate_explanation rec en t.1 liked_ids))

/-- The spec-side comparison pipeline: `recommend` with the dislike
dampening step (§4.3.5) omitted, otherwise word-for-word the same. -/
def ContentBasedRecommender.recommendNoDampen (rec : ContentBasedRecommender) (lg : ℚ → ℚ)
    (en : List String → List String) (liked_ids disliked_ids : List Int) (k : Nat) :
    List (Movie × ℚ × String) :=
  let candidates := rec.movies.filter (isCandidate liked_ids disliked_ids)
  if liked_ids = [] then get_cold_start_recommendations candidates k
  else
    let likedIdx := liked_ids.filterMap (idToIdx rec.movies)
    if likedIdx = [] then []
    else
      let scores := adjustedSimsNoDampen rec lg likedIdx
      let candPairs := (rec.movies.zip scores).filter
        (fun p => isCandidate liked_ids disliked_ids p.1)
      let ranked := sortBy (fun a b => decide (b.2 ≤ a.2)) candPairs
      let diverse := apply_diversity_reranking rec.movies liked_ids k ranked
      (diverse.take k).map (fun t => (t.1, t.2.2, generate_explanation rec en t.1 liked_ids))

/- ## Concrete instances evaluated in the theorems -/

/-- A stand-in for the external `np.log1p` that the concrete catalogs
below never consult (their items carry no popularity). -/
def log1pZero : ℚ → ℚ := fun _ => 0

/-- One admissible set-enumeration order: the canonical order itself. -/
def enumInOrder : List String → List String := fun l => l

/-- Another admissible set-enumeration order (sets carry no order, so any
permutation can be what `list(s)` returns in some interpreter run). -/
def enumReversed : List String → List String := fun l => l.reverse

/-- A minimal catalog item: id, title and keywords only. -/
def kwMovie (i : Int) (t : String) (kw : List String) : Movie :=
  { emptyMovie with id := i, title := t, keywords := kw }

/-- Two-item catalog shared by several witnesses. -/
def catalogAB : List Movie := [kwMovie 1 "A" ["alpha"], kwMovie 2 "B" ["beta"]]

/-- The recommender built over `catalogAB`. -/
def recAB : ContentBasedRecommender := ContentBasedRecommender.init catalogAB

/-- Two items sharing both keywords, so the shared-keyword reason renders
a two-element set. -/
def catalogC5 : List Movie := [kwMovie 1 "A" ["alpha", "beta"], kwMovie 2 "C" ["alpha", "beta"]]

/-- The recommender built over `catalogC5`. -/
def recC5 : ContentBasedRecommender := ContentBasedRecommender.init catalogC5

/-- Four items: liking A twice against once changes which of C and D wins. -/
def catalogC10 : List Movie :=
  [kwMovie 1 "A" ["alpha"], kwMovie 2 "B" ["beta"],
   kwMovie 3 "C" ["alpha", "alpha"], kwMovie 4 "D" ["beta"]]

/-- The recommender built over `catalogC10`. -/
def recC10 : ContentBasedRecommender := ContentBasedRecommender.init catalogC10

/-- An item whose genres and keywords share the word "war". -/
def movieC3 : Movie := { emptyMovie with id := 30, genres := ["war"], keywords := ["war"] }

/-- Another item with "war" in both genres and keywords. -/
def movieC3w : Movie :=
  { emptyMovie with id := 31, genres := ["war", "drama"], keywords := ["war", "epic"] }

/-- A rated item with a present `vote_average` of exactly `0.0`. -/
def movieZeroRating : Movie :=
  { emptyMovie with id := 60, vote_average := some 0, vote_count := some 100 }

/-- A well-rated item (8.2 over 200 votes). -/
def movieWellRated : Movie :=
  { emptyMovie with id := 61, vote_average := some 8.2, vote_count := some 200 }

/-- A present `0.0` rating with plenty of votes. -/
def movieZeroRating2 : Movie :=
  { emptyMovie with id := 70, vote_average := some 0, vote_count := some 200 }

/-- A present popularity of exactly `0`. -/
def movieZeroPopularity : Movie := { emptyMovie with id := 71, popularity := some 0 }

/-- The quality multiplier as claim C6/C7 read it: whenever the vote count
suffices, the rating bands apply to the present `vote_average` value. -/
def claimedQualityBoost (r : ℚ) (vc : Int) : ℚ :=
  if MIN_VOTES_FOR_QUALITY < vc then ratingBand r else 1

/-- The length bound as claim C2 states it:
`min(k, |catalog| − |liked ∩ catalog| − |disliked ∩ catalog|)`. -/
def claimedLengthBound (movies : List Movie) (liked disliked : List Int) (k : Nat) : Int :=
  min (k : Int) ((movies.length : Int) -
    ((liked.dedup.filter (fun i => movies.any (fun m => m.id == i))).length : Int) -
    ((disliked.dedup.filter (fun i => movies.any (fun m => m.id == i))).length : Int))

/- ## Theorems

First the token-level structure of the synthesized documents (claims C8
and C3), then the query pipeline (C1, C2, C4, C5, C9, C10) and the boost
arithmetic (C6, C7). -/

theorem runsAcc_break (p : Char → Bool) (c : Char) (hc : p c = false) :
    ∀ (xs acc ys : List Char),
      runsAcc p acc (xs ++ c :: ys) = runsAcc p acc xs ++ runsAcc p [] ys := by
  intro xs
  induction xs with
  | nil =>
    intro acc ys
    simp [runsAcc, hc]
  | cons a as ih =>
    intro acc ys
    by_cases h : p a
    · simp only [List.cons_append, runsAcc, h, if_true]
      exact ih (a :: acc) ys
    · simp only [List.cons_append, runsAcc, h, if_false, Bool.false_eq_true, List.append_eq]
      rw [ih [] ys, List.append_assoc]

theorem tokensL_break (c : Char) (hc : isWordChar c = false) (xs ys : List Char) :
    tokensL (xs ++ c :: ys) = tokensL xs ++ tokensL ys := by
  unfold tokensL runsBy
  rw [runsAcc_break isWordChar c hc, List.filter_append, List.map_append]

theorem tokens_append_space (a b : String) : tokens (a ++ " " ++ b) = tokens a ++ tokens b := by
  unfold tokens
  rw [String.data_append, String.data_append, List.map_append, List.map_append]
  have hsp : (" ".data.map Char.toLower) = [' '] := by decide
  rw [hsp, List.append_assoc]
  exact tokensL_break ' ' (by decide) _ _

theorem tokens_joinSp (l : List String) : tokens (joinSp l) = l.flatMap tokens := by
  induction l with
  | nil => rfl
  | cons s rest ih =>
    cases rest with
    | nil => simp [joinSp, joinBy]
    | cons s2 r2 =>
      show tokens (s ++ " " ++ joinBy " " (s2 :: r2)) = _
      rw [tokens_append_space]
      rw [show joinBy " " (s2 :: r2) = joinSp (s2 :: r2) from rfl, ih]
      simp [List.flatMap_cons]

theorem flatMap_tokens_replicate (n : Nat) (s : String) :
    (List.replicate n s).flatMap tokens = (List.replicate n (tokens s)).flatten := by
  induction n with
  | zero => rfl
  | succ k ih => simp [List.replicate_succ, ih]

theorem tokens_repeat (s : String) (n : Nat) :
    tokens (repeat_text s n) = (List.replicate n (tokens s)).flatten := by
  unfold repeat_text
  rw [tokens_joinSp, flatMap_tokens_replicate]

theorem tokens_tagged (tg w b : String) (h1 : tg.data.map Char.toLower = w.data ++ [':'])
    (h2 : tokensL w.data = [w]) : tokens (tg ++ b) = w :: tokens b := by
  unfold tokens
  rw [String.data_append, List.map_append, h1, List.append_assoc]
  show tokensL (w.data ++ ':' :: b.data.map Char.toLower) = _
  rw [tokensL_break ':' (by decide), h2]
  rfl

theorem tokens_partGeneros (m : Movie) : tokens (partGeneros m) =
    "generos" :: (List.replicate WEIGHT_GENRES (tokens (genresText m))).flatten := by
  unfold partGeneros
  rw [tokens_tagged _ "generos" _ (by decide) (by decide), tokens_repeat]

theorem tokens_partKeywords (m : Movie) : tokens (partKeywords m) =
    "keywords" :: (List.replicate WEIGHT_KEYWORDS (tokens (keywordsText m))).flatten := by
  unfold partKeywords
  rw [tokens_tagged _ "keywords" _ (by decide) (by decide), tokens_repeat]

theorem tokens_partDiretor (m : Movie) : tokens (partDiretor m) =
    "diretor" :: (List.replicate WEIGHT_DIRECTOR (tokens (directorText m))).flatten := by
  unfold partDiretor
  rw [tokens_tagged _ "diretor" _ (by decide) (by decide), tokens_repeat]

theorem tokens_partElenco (m : Movie) : tokens (partElenco m) =
    "elenco" :: (List.replicate WEIGHT_CAST (tokens (castText m))).flatten := by
  unfold partElenco
  rw [tokens_tagged _ "elenco" _ (by decide) (by decide), tokens_repeat]

theorem tokens_partEmpresas (m : Movie) : tokens (partEmpresas m) =
    "empresas" :: tokens (companiesText m) := by
  unfold partEmpresas
  exact tokens_tagged _ "empresas" _ (by decide) (by decide)

theorem tokens_partCertificacao (m : Movie) : tokens (partCertificacao m) =
    "certificacao" :: (List.replicate WEIGHT_CERTIFICATION (tokens (certificationText m))).flatten := by
  unfold partCertificacao
  rw [tokens_tagged _ "certificacao" _ (by decide) (by decide), tokens_repeat]

theorem tokens_partDecada (m : Movie) : tokens (partDecada m) =
    "decada" :: tokens (decadeText m) := by
  unfold partDecada
  exact tokens_tagged _ "decada" _ (by decide) (by decide)

theorem tokens_partIdioma (m : Movie) : tokens (partIdioma m) =
    "idioma" :: tokens (languageText m) := by
  unfold partIdioma
  exact tokens_tagged _ "idioma" _ (by decide) (by decide)

theorem tokens_partPaises (m : Movie) : tokens (partPaises m) =
    "paises" :: tokens (countriesText m) := by
  unfold partPaises
  exact tokens_tagged _ "paises" _ (by decide) (by decide)

theorem tokens_partPopularidade (m : Movie) : tokens (partPopularidade m) =
    "popularidade" :: tokens (popularityTierText m) := by
  unfold partPopularidade
  exact tokens_tagged _ "popularidade" _ (by decide) (by decide)

theorem tokens_partTagline (m : Movie) : tokens (partTagline m) =
    "tagline" :: tokens (taglineText m) := by
  unfold partTagline
  exact tokens_tagged _ "tagline" _ (by decide) (by decide)

theorem tokens_partSinopse (m : Movie) : tokens (partSinopse m) =
    "sinopse" :: tokens (extract_overview m) := by
  unfold partSinopse
  exact tokens_tagged _ "sinopse" _ (by decide) (by decide)

/-- C8: the synthesized document contains each field's token group
repeated exactly its canonical integer weight before concatenation —
genres ×5, keywords ×6, director ×3, first-5 cast ×2, certification ×2,
and companies (first 3), countries (first 2), decade, original language,
popularity tier, tagline and the first-150-words overview once each (the
caps live in `castText`, `companiesText`, `countriesText` and
`extract_overview`), with one namespace token per field. -/
theorem movie_text_has_canonical_weights (m : Movie) :
    tokens (movie_to_text m) =
      ["generos"] ++ (List.replicate WEIGHT_GENRES (tokens (genresText m))).flatten ++
      ["keywords"] ++ (List.replicate WEIGHT_KEYWORDS (tokens (keywordsText m))).flatten ++
      ["diretor"] ++ (List.replicate WEIGHT_DIRECTOR (tokens (directorText m))).flatten ++
      ["elenco"] ++ (List.replicate WEIGHT_CAST (tokens (castText m))).flatten ++
      ["empresas"] ++ tokens (companiesText m) ++
      ["certificacao"] ++
        (List.replicate WEIGHT_CERTIFICATION (tokens (certificationText m))).flatten ++
      ["decada"] ++ tokens (decadeText m) ++
      ["idioma"] ++ tokens (languageText m) ++
      ["paises"] ++ tokens (countriesText m) ++
      ["popularidade"] ++ tokens (popularityTierText m) ++
      ["tagline"] ++ tokens (taglineText m) ++
      ["sinopse"] ++ tokens (extract_overview m) := by
  unfold movie_to_text
  rw [tokens_joinSp]
  simp only [List.flatMap_cons, List.flatMap_nil, List.append_nil, tokens_partGeneros,
    tokens_partKeywords, tokens_partDiretor, tokens_partElenco, tokens_partEmpresas,
    tokens_partCertificacao, tokens_partDecada, tokens_partIdioma, tokens_partPaises,
    tokens_partPopularidade, tokens_partTagline, tokens_partSinopse]
  simp [List.append_assoc]

/-- C3 (counterexample): the claim says identical words arriving from
different fields map to distinct vocabulary terms.  On the item whose
genres and keywords both contain "war", the genres part and the keywords
part of the synthesized document both yield the very same vocabulary term
"war" after tokenization — the `generos:` / `keywords:` namespacing
attaches only to the first token of each group and the tokenizer splits
it off at the colon. -/
theorem fields_collide_cx :
    "war" ∈ tokens (partGeneros movieC3) ∧ "war" ∈ tokens (partKeywords movieC3) ∧
      tokens (partGeneros movieC3) = ["generos", "war", "war", "war", "war", "war"] := by
  refine ⟨by decide, by decide, by decide⟩

/-- C3 (amended): each field group is namespaced by a single leading tag
token (split off at the colon), and a word occurring in both the genres
and the keywords token groups reaches the shared vocabulary as one and
the same term from both fields — identical words from different fields do
collide. -/
theorem fields_share_vocabulary_terms (m : Movie) (w : String)
    (hg : w ∈ tokens (genresText m)) (hk : w ∈ tokens (keywordsText m)) :
    w ∈ tokens (partGeneros m) ∧ w ∈ tokens (partKeywords m) := by
  constructor
  · rw [tokens_partGeneros]
    exact List.mem_cons_of_mem _ (List.mem_flatten.mpr
      ⟨tokens (genresText m), List.mem_replicate.mpr ⟨by decide, rfl⟩, hg⟩)
  · rw [tokens_partKeywords]
    exact List.mem_cons_of_mem _ (List.mem_flatten.mpr
      ⟨tokens (keywordsText m), List.mem_replicate.mpr ⟨by decide, rfl⟩, hk⟩)

/-- Witness for the amended C3 theorem at a concrete item. -/
theorem fields_share_vocabulary_terms_witness :
    "war" ∈ tokens (partGeneros movieC3w) ∧ "war" ∈ tokens (partKeywords movieC3w) :=
  fields_share_vocabulary_terms movieC3w "war" (by decide) (by decide)

/- ## Structural lemmas about the ranking pipeline -/

theorem insertBy_perm (r : α → α → Bool) (x : α) (l : List α) :
    (insertBy r x l).Perm (x :: l) := by
  induction l with
  | nil => exact List.Perm.refl _
  | cons y ys ih =>
    by_cases h : r x y
    · simp [insertBy, h]
    · simp only [insertBy, h, if_false, Bool.false_eq_true]
      exact ((ih.cons y).trans (List.Perm.swap x y ys))

theorem sortBy_perm (r : α → α → Bool) (l : List α) : (sortBy r l).Perm l := by
  induction l with
  | nil => exact List.Perm.refl _
  | cons x xs ih => exact (insertBy_perm r x (sortBy r xs)).trans (ih.cons x)

theorem mem_sortBy {r : α → α → Bool} {l : List α} {x : α} :
    x ∈ sortBy r l ↔ x ∈ l := (sortBy_perm r l).mem_iff

theorem length_sortBy (r : α → α → Bool) (l : List α) :
    (sortBy r l).length = l.length := (sortBy_perm r l).length_eq

theorem diversityLoop_mem (movies : List Movie) (liked : List Int) (k : Nat) :
    ∀ (st : DivState) (ranked : List (Movie × ℚ)) (e : Movie × ℚ × ℚ),
      e ∈ diversityLoop movies liked k st ranked →
      ∃ pr ∈ ranked, e.1 = pr.1 ∧ e.2.2 = pr.2 := by
  intro st ranked
  induction ranked generalizing st with
  | nil => intro e he; simp [diversityLoop] at he
  | cons hd tl ih =>
    intro e he
    obtain ⟨m, score⟩ := hd
    simp only [diversityLoop] at he
    by_cases hcnt : (divUpdate st m).count ≥ k * 3
    · rw [if_pos hcnt] at he
      simp only [List.mem_singleton] at he
      exact ⟨(m, score), List.mem_cons_self _ _, by rw [he], by rw [he]⟩
    · rw [if_neg hcnt] at he
      rcases List.mem_cons.mp he with h | h
      · exact ⟨(m, score), List.mem_cons_self _ _, by rw [h], by rw [h]⟩
      · obtain ⟨pr, hpr, he1, he2⟩ := ih (divUpdate st m) e h
        exact ⟨pr, List.mem_cons_of_mem _ hpr, he1, he2⟩

theorem diversityLoop_length (movies : List Movie) (liked : List Int) (k : Nat) :
    ∀ (st : DivState) (ranked : List (Movie × ℚ)),
      (diversityLoop movies liked k st ranked).length ≤ ranked.length := by
  intro st ranked
  induction ranked generalizing st with
  | nil => simp [diversityLoop]
  | cons hd tl ih =>
    obtain ⟨m, score⟩ := hd
    simp only [diversityLoop]
    by_cases hcnt : (divUpdate st m).count ≥ k * 3
    · rw [if_pos hcnt]
      simp only [List.length_cons, List.length_nil]
      omega
    · rw [if_neg hcnt]
      simp only [List.length_cons]
      exact Nat.succ_le_succ (ih (divUpdate st m))

theorem filter_zip_length_le (pred : Movie → Bool) :
    ∀ (ms : List Movie) (ss : List ℚ),
      ((ms.zip ss).filter (fun p => pred p.1)).length ≤ (ms.filter pred).length := by
  intro ms
  induction ms with
  | nil => intro ss; simp
  | cons m ms' ih =>
    intro ss
    cases ss with
    | nil => simp [List.zip_nil_right]
    | cons s ss' =>
      simp only [List.zip_cons_cons, List.filter_cons]
      by_cases h : pred m
      · simp only [h, if_true, List.length_cons]
        exact Nat.succ_le_succ (ih ss')
      · simp only [h, if_false, Bool.false_eq_true]
        exact ih ss'

/-- C1: no item in the returned sequence has an id occurring in
`liked_ids` or in `disliked_ids` — on the cold-start path included, whose
candidates also exclude disliked items. -/
theorem recommend_excludes_rated (rec : ContentBasedRecommender) (lg : ℚ → ℚ)
    (en : List String → List String) (liked disliked : List Int) (k : Nat)
    (t : Movie × ℚ × String) (ht : t ∈ rec.recommend lg en liked disliked k) :
    t.1.id ∉ liked ∧ t.1.id ∉ disliked := by
  unfold ContentBasedRecommender.recommend at ht
  by_cases h0 : liked = []
  · rw [if_pos h0] at ht
    unfold get_cold_start_recommendations at ht
    obtain ⟨m, hm, rfl⟩ := List.mem_map.mp ht
    have hm2 := mem_sortBy.mp ((List.take_sublist _ _).mem hm)
    have hc := (List.mem_filter.mp hm2).2
    unfold isCandidate at hc
    simp only [Bool.and_eq_true, decide_eq_true_eq] at hc
    exact hc
  · rw [if_neg h0] at ht
    by_cases h1 : liked.filterMap (idToIdx rec.movies) = []
    · rw [if_pos h1] at ht
      simp at ht
    · rw [if_neg h1] at ht
      obtain ⟨d, hd, rfl⟩ := List.mem_map.mp ht
      have hd2 := (List.take_sublist _ _).mem hd
      unfold apply_diversity_reranking at hd2
      obtain ⟨pr, hpr, hfst, _⟩ := diversityLoop_mem _ _ _ _ _ _ (mem_sortBy.mp hd2)
      have hc := (List.mem_filter.mp (mem_sortBy.mp hpr)).2
      unfold isCandidate at hc
      simp only [Bool.and_eq_true, decide_eq_true_eq] at hc
      show d.1.id ∉ liked ∧ d.1.id ∉ disliked
      rw [hfst]
      exact hc

/-- Witness for C1 at a concrete catalog and request. -/
theorem recommend_excludes_rated_witness :
    ((recAB.recommend log1pZero enumInOrder [1] [] 5).getD 0 (emptyMovie, 0, "")).1.id ∉
        [(1 : Int)] ∧
      ((recAB.recommend log1pZero enumInOrder [1] [] 5).getD 0 (emptyMovie, 0, "")).1.id ∉
        ([] : List Int) :=
  recommend_excludes_rated recAB log1pZero enumInOrder [1] [] 5 _ (by decide)

/-- C2 (counterexample): when an id is both liked and disliked, the
claimed bound `min(k, |catalog| − |liked ∩ catalog| − |disliked ∩
catalog|)` double-counts it and is exceeded: on a two-item catalog with
liked = disliked = [1], the bound is 0 yet one item is returned. -/
theorem length_bound_cx :
    claimedLengthBound catalogAB [1] [1] 5 <
      ((recAB.recommend log1pZero enumInOrder [1] [1] 5).length : Int) := by decide

/-- C2 (amended): the output length is bounded by `min(k, |catalog minus
liked minus disliked|)` — the subtraction taken as one set difference, so
ids in both lists are not double-counted. -/
theorem recommend_length_bound (rec : ContentBasedRecommender) (lg : ℚ → ℚ)
    (en : List String → List String) (liked disliked : List Int) (k : Nat) :
    (rec.recommend lg en liked disliked k).length ≤
      min k ((rec.movies.filter (isCandidate liked disliked)).length) := by
  unfold ContentBasedRecommender.recommend
  by_cases h0 : liked = []
  · rw [if_pos h0]
    unfold get_cold_start_recommendations
    rw [List.length_map, List.length_take, length_sortBy]
  · rw [if_neg h0]
    by_cases h1 : liked.filterMap (idToIdx rec.movies) = []
    · rw [if_pos h1]
      simp
    · rw [if_neg h1]
      rw [List.length_map, List.length_take]
      refine min_le_min (le_refl k) ?_
      unfold apply_diversity_reranking
      rw [length_sortBy]
      refine le_trans (diversityLoop_length _ _ _ _ _) ?_
      rw [length_sortBy]
      exact filter_zip_length_le _ _ _

/-- C9: when `liked_ids` is non-empty but none of its ids occurs in the
id→position map, `recommend` returns the empty list as a normal outcome,
whatever `disliked_ids` is. -/
theorem unknown_liked_ids_empty_result (rec : ContentBasedRecommender) (lg : ℚ → ℚ)
    (en : List String → List String) (liked disliked : List Int) (k : Nat)
    (hne : liked ≠ []) (hunk : ∀ l ∈ liked, idToIdx rec.movies l = none) :
    rec.recommend lg en liked disliked k = [] := by
  unfold ContentBasedRecommender.recommend
  rw [if_neg hne, if_pos (List.filterMap_eq_nil_iff.mpr hunk)]

/-- Witness for C9: a liked id absent from the catalog, with empty
disliked list. -/
theorem unknown_liked_ids_empty_result_witness :
    recAB.recommend log1pZero enumInOrder [99] [] 5 = [] :=
  unknown_liked_ids_empty_result recAB log1pZero enumInOrder [99] [] 5 (by decide) (by decide)

/-- C5 (amended): the returned items, their ordering and their scores do
not depend on the set-enumeration order used to render reasons; only the
keyword / cast / company reason fragments do. -/
theorem recommend_scores_enum_independent (rec : ContentBasedRecommender) (lg : ℚ → ℚ)
    (en1 en2 : List String → List String) (liked disliked : List Int) (k : Nat) :
    (rec.recommend lg en1 liked disliked k).map (fun t => (t.1, t.2.1)) =
      (rec.recommend lg en2 liked disliked k).map (fun t => (t.1, t.2.1)) := by
  simp only [ContentBasedRecommender.recommend]
  by_cases h0 : liked = []
  · rw [if_pos h0, if_pos h0]
  · rw [if_neg h0, if_neg h0]
    by_cases h1 : liked.filterMap (idToIdx rec.movies) = []
    · rw [if_pos h1, if_pos h1]
    · rw [if_neg h1, if_neg h1]
      rw [List.map_map, List.map_map]
      rfl

/-- C5 (counterexample): two runs on identical inputs whose only
difference is the order in which the shared-keyword set happens to be
enumerated (both orders are possible `list(set)` results across
interpreter runs) produce different reason text. -/
theorem reason_text_enum_dependent_cx :
    (recC5.recommend log1pZero enumInOrder [1] [] 5).map (fun t => t.2.2) ≠
      (recC5.recommend log1pZero enumReversed [1] [] 5).map (fun t => t.2.2) := by decide

/-- C10: repeating a liked id shifts the user vector — on `catalogC10`,
liking A twice and B once ranks C above D, while liking each once ranks D
above C; the candidate sets coincide and only the order flips. -/
theorem liked_duplicates_change_order :
    (recC10.recommend log1pZero enumInOrder [1, 1, 2] [] 10).map (fun t => t.1.id) = [3, 4] ∧
      (recC10.recommend log1pZero enumInOrder [1, 2] [] 10).map (fun t => t.1.id) = [4, 3] :=
  ⟨by decide, by decide⟩

theorem qualityBoost_some (m : Movie) (x : ℚ) (hva : m.vote_average = some x) :
    qualityBoost m =
      if x ≠ 0 ∧ MIN_VOTES_FOR_QUALITY < m.vote_count.getD 0 then ratingBand x else 1 := by
  unfold qualityBoost
  rw [hva]

theorem format_quality_info_some (m : Movie) (x : ℚ) (hva : m.vote_average = some x) :
    format_quality_info m =
      if x = 0 then ""
      else if m.vote_count.getD 0 ≤ MIN_VOTES_FOR_QUALITY then ""
      else if x ≥ RATING_THRESHOLD_EXCELLENT then
        "⭐ " ++ formatFixed1 x ++ "/10 (" ++ toString (m.vote_count.getD 0) ++ " votos)"
      else if x ≥ RATING_THRESHOLD_GOOD then "⭐ " ++ formatFixed1 x ++ "/10"
      else "" := by
  unfold format_quality_info
  rw [hva]

/-- C6 (counterexample): an item with a present `vote_average` of `0.0`
and 100 votes keeps the neutral multiplier 1.0, while the claimed band
table (`< 5.0 → 0.80` whenever `vote_count > 50`) demands 0.8. -/
theorem quality_boost_zero_rating_cx :
    qualityBoost movieZeroRating = 1 ∧ claimedQualityBoost 0 100 = 0.8 ∧ (1 : ℚ) ≠ 0.8 :=
  ⟨by decide, by decide, by decide⟩

/-- C6 (amended): the quality multiplier is 1.0 unless `vote_count > 50`
and `vote_average` is present and non-zero (Python truthiness); in that
case the bands apply: ≥8.0 → 1.30, ≥7.5 → 1.20, ≥7.0 → 1.15, ≥6.5 →
1.10, <5.0 → 0.80, and the band [5.0, 6.5) stays at 1.0. -/
theorem quality_boost_bands (m : Movie) (r : ℚ) :
    (m.vote_average = none → qualityBoost m = 1) ∧
    (m.vote_average = some 0 → qualityBoost m = 1) ∧
    (m.vote_count.getD 0 ≤ MIN_VOTES_FOR_QUALITY → qualityBoost m = 1) ∧
    (m.vote_average = some r → r ≠ 0 → MIN_VOTES_FOR_QUALITY < m.vote_count.getD 0 →
      qualityBoost m = ratingBand r) ∧
    (8 ≤ r → ratingBand r = 1.3) ∧
    (7.5 ≤ r → r < 8 → ratingBand r = 1.2) ∧
    (7 ≤ r → r < 7.5 → ratingBand r = 1.15) ∧
    (6.5 ≤ r → r < 7 → ratingBand r = 1.1) ∧
    (5 ≤ r → r < 6.5 → ratingBand r = 1) ∧
    (r < 5 → ratingBand r = 0.8) := by
  refine ⟨?_, ?_, ?_, ?_, ?_, ?_, ?_, ?_, ?_, ?_⟩
  · intro h
    simp [qualityBoost, h]
  · intro h
    simp [qualityBoost, h]
  · intro h
    cases hva : m.vote_average with
    | none => simp [qualityBoost, hva]
    | some x =>
      rw [qualityBoost_some m x hva, if_neg]
      rintro ⟨-, h2⟩
      omega
  · intro hva hr hc
    rw [qualityBoost_some m r hva, if_pos ⟨hr, hc⟩]
  all_goals
    intros
    unfold ratingBand RATING_THRESHOLD_EXCELLENT RATING_THRESHOLD_VERY_GOOD
      RATING_THRESHOLD_GOOD RATING_THRESHOLD_DECENT RATING_THRESHOLD_POOR
      BOOST_RATING_EXCELLENT BOOST_RATING_VERY_GOOD BOOST_RATING_GOOD BOOST_RATING_DECENT
      PENALTY_RATING_POOR
    split_ifs <;> first
      | rfl
      | (exfalso; norm_num at *; linarith)

/-- Witness for the amended C6 theorem: 8.2 over 200 votes boosts 1.3. -/
theorem quality_boost_bands_witness : qualityBoost movieWellRated = 1.3 := by
  have h := quality_boost_bands movieWellRated 8.2
  rw [h.2.2.2.1 rfl (by norm_num) (by decide), h.2.2.2.2.1 (by norm_num)]

/-- C7 (counterexample): a present `vote_average` of `0.0` with 200 votes
is treated exactly like an absent one (neutral boost, suppressed
annotation) instead of being processed by the rating bands, which would
give 0.8. -/
theorem present_zero_treated_as_absent_cx :
    qualityBoost movieZeroRating2 = 1 ∧ format_quality_info movieZeroRating2 = "" ∧
      claimedQualityBoost 0 200 = 0.8 ∧ (1 : ℚ) ≠ 0.8 :=
  ⟨by decide, by decide, by decide, by decide⟩

/-- C7 (amended): missing optional numeric fields are neutral (1.0) and
suppress the quality annotation; but a present value of `0` is ALSO
treated as absent by the truthiness guards.  For popularity this
coincides with the normal formula (`1 + log1p(0)/40 = 1`), while for a
zero rating with enough votes it diverges from the bands (see the
counterexample). -/
theorem absent_numeric_fields_neutral (m : Movie) (lg : ℚ → ℚ) :
    (m.popularity = none → popularityBoost lg m = 1) ∧
    (m.vote_average = none → qualityBoost m = 1 ∧ format_quality_info m = "") ∧
    (m.vote_count = none → qualityBoost m = 1 ∧ format_quality_info m = "") ∧
    (m.popularity = some 0 →
      popularityBoost lg m = 1 ∧ (lg 0 = 0 → 1 + lg 0 / BOOST_POPULARITY_SCALE = 1)) ∧
    (m.vote_average = some 0 → qualityBoost m = 1 ∧ format_quality_info m = "") := by
  refine ⟨?_, ?_, ?_, ?_, ?_⟩
  · intro h
    simp [popularityBoost, h]
  · intro h
    exact ⟨by simp [qualityBoost, h], by simp [format_quality_info, h]⟩
  · intro h
    constructor
    · cases hva : m.vote_average with
      | none => simp [qualityBoost, hva]
      | some x =>
        rw [qualityBoost_some m x hva, if_neg]
        rintro ⟨-, h2⟩
        rw [h] at h2
        exact absurd h2 (by decide)
    · cases hva : m.vote_average with
      | none => simp [format_quality_info, hva]
      | some x =>
        rw [format_quality_info_some m x hva]
        by_cases hx : x = 0
        · rw [if_pos hx]
        · rw [if_neg hx, if_pos (by rw [h]; decide)]
  · intro h
    refine ⟨by simp [popularityBoost, h], fun hl => by rw [hl]; norm_num⟩
  · intro h
    exact ⟨by simp [qualityBoost, h], by simp [format_quality_info, h]⟩

/-- Witness for the amended C7 theorem: present popularity `0` and absent
vote fields are all neutral. -/
theorem absent_numeric_fields_neutral_witness :
    popularityBoost log1pZero movieZeroPopularity = 1 ∧
      qualityBoost movieZeroPopularity = 1 := by
  have h := absent_numeric_fields_neutral movieZeroPopularity log1pZero
  exact ⟨(h.2.2.2.1 rfl).1, (h.2.2.1 rfl).1⟩

/- ## The dislike-dampening step is unobservable (claim C4) -/

theorem idToIdxFrom_spec (x : Int) :
    ∀ (ms : List Movie) (i q : Nat), idToIdxFrom x i ms = some q →
      ∃ j, j < ms.length ∧ q = i + j ∧ (ms.getD j emptyMovie).id = x := by
  intro ms
  induction ms with
  | nil =>
    intro i q h
    simp [idToIdxFrom] at h
  | cons m tl ih =>
    intro i q h
    unfold idToIdxFrom at h
    cases htl : idToIdxFrom x (i + 1) tl with
    | some q' =>
      simp only [htl, Option.some.injEq] at h
      obtain ⟨j, hj, hq, hid⟩ := ih (i + 1) q' htl
      exact ⟨j + 1, by simpa using hj, by omega, by simpa using hid⟩
    | none =>
      simp only [htl] at h
      by_cases hm : m.id = x
      · rw [if_pos hm] at h
        injection h with h'
        exact ⟨0, by simp, by omega, by simpa using hm⟩
      · rw [if_neg hm] at h
        exact absurd h (by simp)

theorem idToIdx_spec (movies : List Movie) (x : Int) (q : Nat)
    (h : idToIdx movies x = some q) :
    q < movies.length ∧ (movies.getD q emptyMovie).id = x := by
  obtain ⟨j, hj, hq, hid⟩ := idToIdxFrom_spec x movies 0 q h
  subst hq
  refine ⟨by omega, ?_⟩
  rw [Nat.zero_add]
  exact hid

theorem applyDislikePenalty_getElem (movies : List Movie) :
    ∀ (disliked : List Int) (sims : List ℚ) (i : Nat),
      (∀ d ∈ disliked, idToIdx movies d ≠ some i) →
      (applyDislikePenalty movies disliked sims)[i]? = sims[i]? := by
  intro disliked
  induction disliked with
  | nil =>
    intro sims i _
    rfl
  | cons d rest ih =>
    intro sims i h
    unfold applyDislikePenalty
    cases hd : idToIdx movies d with
    | some q =>
      simp only [hd]
      rw [ih _ i (fun d' hd' => h d' (List.mem_cons_of_mem _ hd'))]
      have hqi : q ≠ i := fun he => h d (List.mem_cons_self _ _) (by rw [hd, he])
      exact List.getElem?_set_ne hqi
    | none =>
      simp only [hd]
      exact ih _ i (fun d' hd' => h d' (List.mem_cons_of_mem _ hd'))

theorem applyDislikePenalty_length (movies : List Movie) :
    ∀ (disliked : List Int) (sims : List ℚ),
      (applyDislikePenalty movies disliked sims).length = sims.length := by
  intro disliked
  induction disliked with
  | nil =>
    intro sims
    rfl
  | cons d rest ih =>
    intro sims
    unfold applyDislikePenalty
    cases hd : idToIdx movies d with
    | some q => simp only [hd, ih, List.length_set]
    | none => simp only [hd, ih]

theorem applyBoosts_getElem (lg : ℚ → ℚ) :
    ∀ (ms : List Movie) (ss : List ℚ) (i : Nat),
      (applyBoosts lg ms ss)[i]? =
        ms[i]?.bind (fun m => ss[i]?.map (fun s => s * popularityBoost lg m *
          qualityBoost m * recencyBoost m * collectionBoost m)) := by
  intro ms
  induction ms with
  | nil =>
    intro ss i
    rfl
  | cons m tl ih =>
    intro ss i
    cases ss with
    | nil =>
      cases i <;> simp [applyBoosts]
    | cons s ss' =>
      cases i with
      | zero => simp [applyBoosts]
      | succ i' =>
        simpa only [applyBoosts, List.getElem?_cons_succ] using ih ss' i'

theorem applyBoosts_length (lg : ℚ → ℚ) :
    ∀ (ms : List Movie) (ss : List ℚ),
      (applyBoosts lg ms ss).length = min ms.length ss.length := by
  intro ms
  induction ms with
  | nil =>
    intro ss
    simp [applyBoosts]
  | cons m tl ih =>
    intro ss
    cases ss with
    | nil => simp [applyBoosts]
    | cons s ss' => simp [applyBoosts, ih, Nat.succ_min_succ]

theorem filter_zip_congr (liked disliked : List Int) :
    ∀ (ms : List Movie) (s1 s2 : List ℚ),
      s1.length = s2.length →
      (∀ (i : Nat) (m : Movie), ms[i]? = some m → m.id ∉ disliked → s1[i]? = s2[i]?) →
      (ms.zip s1).filter (fun p => isCandidate liked disliked p.1) =
        (ms.zip s2).filter (fun p => isCandidate liked disliked p.1) := by
  intro ms
  induction ms with
  | nil =>
    intros
    rfl
  | cons m tl ih =>
    intro s1 s2 hlen h
    cases s1 with
    | nil =>
      cases s2 with
      | nil => rfl
      | cons b bs => simp at hlen
    | cons a as =>
      cases s2 with
      | nil => simp at hlen
      | cons b bs =>
        have htl := ih as bs (by simpa using hlen)
          (fun i m' hm' hnd => by
            have hstep := h (i + 1) m' (by rw [List.getElem?_cons_succ]; exact hm') hnd
            rwa [List.getElem?_cons_succ, List.getElem?_cons_succ] at hstep)
        simp only [List.zip_cons_cons, List.filter_cons]
        by_cases hc : isCandidate liked disliked m = true
        · have hnd : m.id ∉ disliked := by
            unfold isCandidate at hc
            simp only [Bool.and_eq_true, decide_eq_true_eq] at hc
            exact hc.2
          have hab : a = b := by
            have h0 := h 0 m (by rw [List.getElem?_cons_zero]) hnd
            rw [List.getElem?_cons_zero, List.getElem?_cons_zero] at h0
            exact Option.some_injective _ h0
          rw [hc, hab, htl]
        · simp only [Bool.not_eq_true] at hc
          rw [hc, htl]
          simp

/-- C4: on every request, `recommend` and the variant that skips the
dislike-dampening step (§4.3.5) return identical output — the dampening
only rescales similarities at disliked items' positions, which are never
among the candidates, so the step has no observable effect. -/
theorem dampening_no_observable_effect (rec : ContentBasedRecommender) (lg : ℚ → ℚ)
    (en : List String → List String) (liked disliked : List Int) (k : Nat) :
    rec.recommend lg en liked disliked k = rec.recommendNoDampen lg en liked disliked k := by
  simp only [ContentBasedRecommender.recommend, ContentBasedRecommender.recommendNoDampen]
  by_cases h0 : liked = []
  · rw [if_pos h0, if_pos h0]
  · rw [if_neg h0, if_neg h0]
    by_cases h1 : liked.filterMap (idToIdx rec.movies) = []
    · rw [if_pos h1, if_pos h1]
    · rw [if_neg h1, if_neg h1]
      have hcand :
          (rec.movies.zip (adjustedSims rec lg (liked.filterMap (idToIdx rec.movies))
              disliked)).filter (fun p => isCandidate liked disliked p.1) =
          (rec.movies.zip (adjustedSimsNoDampen rec lg
              (liked.filterMap (idToIdx rec.movies)))).filter
            (fun p => isCandidate liked disliked p.1) := by
        apply filter_zip_congr
        · unfold adjustedSims adjustedSimsNoDampen
          rw [applyBoosts_length, applyBoosts_length, applyDislikePenalty_length]
        · intro i m hm hnd
          unfold adjustedSims adjustedSimsNoDampen
          rw [applyBoosts_getElem, applyBoosts_getElem,
            applyDislikePenalty_getElem rec.movies disliked _ i]
          intro d hd heq
          obtain ⟨hlt, hid⟩ := idToIdx_spec rec.movies d i heq
          have hgd : rec.movies.getD i emptyMovie = m := by
            rw [List.getD_eq_getElem?_getD, hm]
            rfl
          rw [hgd] at hid
          exact hnd (hid ▸ hd)
      rw [hcand]
